import Mathlib

/-!
Shallow embedding of the switch abstraction and session-management layer of
app.py: the mock device (MockCiscoSwitch), the real-device driver shell
(CiscoSwitch, with its external SSH session abstracted as an environment),
and the connection-lifecycle manager (SwitchManager) with its audit log and
action dispatch. Python dicts become insertion-ordered association lists,
exceptions become an explicit error type threaded through Except, wall-clock
timestamps and the external network become parameters.
-/

set_option autoImplicit false

namespace SwitchApp

/-- State of one switch port, the value type of the interface table
    (app.py lines 66-100). Field names follow the Python dict keys. -/
structure InterfaceState where
  port_security : Bool
  max_mac_addresses : Int
  violation_action : String
  learned_mac_addresses : List String
  status : String
deriving DecidableEq

/-- Static device metadata (app.py lines 102-107). -/
structure DeviceInfo where
  hostname : String
  model : String
  ios_version : String
  uptime : String
deriving DecidableEq

/-- Errors raised by device operations. `valueError` is the class the mock
    raises for an unknown interface name, `connectionError` is raised by
    execute_command without an open session, `attributeError` models a
    method access on a None object, `operationError` wraps any other
    exception escaping the external session library. -/
inductive PyError where
  | valueError (msg : String)
  | connectionError (msg : String)
  | attributeError (msg : String)
  | operationError (msg : String)
deriving DecidableEq

/-- Rendering of str(e) for a caught exception: each error carries its
    message verbatim. -/
def PyError.toStr : PyError → String
  | .valueError msg => msg
  | .connectionError msg => msg
  | .attributeError msg => msg
  | .operationError msg => msg

/-- Lookup in an insertion-ordered association list, the embedding of
    Python dict indexing and the `in` test (keys are unique). -/
def dictLookup (k : String) : List (String × InterfaceState) → Option InterfaceState
  | [] => none
  | (k2, v) :: rest => if k2 = k then some v else dictLookup k rest

/-- Replacement of the value stored at an existing key, the embedding of
    item assignment on a Python dict (position of the entry is kept). -/
def dictSet (k : String) (v : InterfaceState) : List (String × InterfaceState) → List (String × InterfaceState)
  | [] => []
  | (k2, v2) :: rest =>
    if k2 = k then (k2, v) :: dictSet k v rest else (k2, v2) :: dictSet k v rest

/-- The in-memory mock switch (app.py lines 61-165). -/
structure MockCiscoSwitch where
  interfaces : List (String × InterfaceState)
  device_info : DeviceInfo
  connected : Bool
deriving DecidableEq

/-- The hardcoded 5-interface fixture built by MockCiscoSwitch.__init__
    (app.py lines 64-108). -/
def mkMockCiscoSwitch : MockCiscoSwitch :=
  { interfaces :=
      [ ("GigabitEthernet0/1",
          { port_security := true, max_mac_addresses := 2, violation_action := "shutdown",
            learned_mac_addresses := ["00:11:22:33:44:55"], status := "up" }),
        ("GigabitEthernet0/2",
          { port_security := false, max_mac_addresses := 1, violation_action := "restrict",
            learned_mac_addresses := [], status := "down" }),
        ("GigabitEthernet0/3",
          { port_security := true, max_mac_addresses := 3, violation_action := "protect",
            learned_mac_addresses := ["00:AA:BB:CC:DD:EE", "00:FF:FF:FF:FF:FF"], status := "up" }),
        ("GigabitEthernet0/4",
          { port_security := false, max_mac_addresses := 1, violation_action := "shutdown",
            learned_mac_addresses := [], status := "up" }),
        ("GigabitEthernet0/5",
          { port_security := true, max_mac_addresses := 1, violation_action := "restrict",
            learned_mac_addresses := ["00:12:34:56:78:90"], status := "up" }) ],
    device_info :=
      { hostname := "MOCK-CISCO-SWITCH", model := "WS-C2960-24TT-L",
        ios_version := "15.0(2)SE11", uptime := "1 day, 2 hours, 30 minutes" },
    connected := false }

/-- Mock connect (app.py lines 110-114): after the simulated delay it sets
    the connected flag and returns True unconditionally. -/
def MockCiscoSwitch.connect (d : MockCiscoSwitch) : Bool × MockCiscoSwitch :=
  (true, { d with connected := true })

/-- Mock disconnect (app.py lines 116-119). -/
def MockCiscoSwitch.disconnect (d : MockCiscoSwitch) : MockCiscoSwitch :=
  { d with connected := false }

/-- Mock get_interface_status (app.py lines 121-126): returns the table
    entry, or raises ValueError for an unknown name. -/
def MockCiscoSwitch.get_interface_status (interface : String) (d : MockCiscoSwitch) :
    Except PyError InterfaceState :=
  match dictLookup interface d.interfaces with
  | some st => .ok st
  | none => .error (.valueError ("Interface " ++ interface ++ " not found"))

/-- Mock enable_port_security (app.py lines 128-137): raises ValueError if
    the interface is unknown, otherwise overwrites the three security
    fields and returns a confirmation string. -/
def MockCiscoSwitch.enable_port_security (interface : String) (max_mac : Int)
    (violation_action : String) (d : MockCiscoSwitch) :
    Except PyError (String × MockCiscoSwitch) :=
  match dictLookup interface d.interfaces with
  | none => .error (.valueError ("Interface " ++ interface ++ " not found"))
  | some st =>
    let st2 := { st with port_security := true, max_mac_addresses := max_mac,
                         violation_action := violation_action }
    .ok ("Port security enabled on " ++ interface ++ " with max MAC addresses: "
          ++ toString max_mac ++ ", violation action: " ++ violation_action,
         { d with interfaces := dictSet interface st2 d.interfaces })

/-- Mock disable_port_security (app.py lines 139-147). -/
def MockCiscoSwitch.disable_port_security (interface : String) (d : MockCiscoSwitch) :
    Except PyError (String × MockCiscoSwitch) :=
  match dictLookup interface d.interfaces with
  | none => .error (.valueError ("Interface " ++ interface ++ " not found"))
  | some st =>
    let st2 := { st with port_security := false, learned_mac_addresses := [] }
    .ok ("Port security disabled on " ++ interface,
         { d with interfaces := dictSet interface st2 d.interfaces })

/-- Mock clear_port_security (app.py lines 149-157). -/
def MockCiscoSwitch.clear_port_security (interface : String) (d : MockCiscoSwitch) :
    Except PyError (String × MockCiscoSwitch) :=
  match dictLookup interface d.interfaces with
  | none => .error (.valueError ("Interface " ++ interface ++ " not found"))
  | some st =>
    let st2 := { st with learned_mac_addresses := [], status := "up" }
    .ok ("Port security cleared on " ++ interface,
         { d with interfaces := dictSet interface st2 d.interfaces })

/-- Mock get_all_interfaces (app.py lines 159-161). -/
def MockCiscoSwitch.get_all_interfaces (d : MockCiscoSwitch) : List String :=
  d.interfaces.map Prod.fst

/-- Outcome of the external netmiko import plus ConnectHandler attempt
    made inside CiscoSwitch.connect (app.py lines 180-201): the library may
    be missing, the handler may raise, or a session opens. -/
inductive ConnectAttempt where
  | importError
  | raised (msg : String)
  | opened
deriving DecidableEq

/-- The external world seen by the real driver: what the connection
    attempt does, and what each remote send_command / send_config_set call
    returns (ok output) or raises (error message). -/
structure NetEnv where
  connectAttempt : ConnectAttempt
  sendCommand : String → Except String String
  sendConfigSet : List String → Except String String

/-- The real-device driver shell (app.py lines 167-176). The external
    netmiko connection object is abstracted to an opaque token: present
    when a session is open, absent otherwise. -/
structure CiscoSwitch where
  ip : String
  username : String
  password : String
  port : Int
  connection : Option Unit
  connected : Bool
deriving DecidableEq

/-- Real connect (app.py lines 178-201): returns False on ImportError and
    on any exception from ConnectHandler (both are caught and logged, never
    re-raised); on success it stores the connection and sets the flag. -/
def CiscoSwitch.connect (env : NetEnv) (d : CiscoSwitch) : Bool × CiscoSwitch :=
  match env.connectAttempt with
  | .importError => (false, d)
  | .raised _ => (false, d)
  | .opened => (true, { d with connection := some (), connected := true })

/-- Real disconnect (app.py lines 203-208): only acts when a connection
    object is present. -/
def CiscoSwitch.disconnect (d : CiscoSwitch) : CiscoSwitch :=
  if d.connection.isSome then { d with connection := none, connected := false } else d

/-- Real execute_command (app.py lines 210-220): raises ConnectionError
    when no session is open, otherwise forwards to the remote session and
    re-raises any failure after logging it. -/
def CiscoSwitch.execute_command (env : NetEnv) (command : String) (d : CiscoSwitch) :
    Except PyError String :=
  match d.connection with
  | none => .error (.connectionError "Not connected to switch")
  | some _ =>
    match env.sendCommand command with
    | .ok output => .ok output
    | .error e => .error (.operationError e)

/-- Substring test, the embedding of the Python `in` operator on strings. -/
def strContains (hay needle : String) : Bool :=
  decide (needle.toList <:+: hay.toList)

/-- Real get_interface_status (app.py lines 222-240): issues the show
    command and derives a status dict from the raw output with the
    documented hardcoded defaults; errors are logged and re-raised. -/
def CiscoSwitch.get_interface_status (env : NetEnv) (interface : String) (d : CiscoSwitch) :
    Except PyError InterfaceState :=
  match d.execute_command env ("show port-security interface " ++ interface) with
  | .error e => .error e
  | .ok output =>
    .ok { port_security := strContains output.toLower "enabled",
          max_mac_addresses := 1,
          violation_action := "shutdown",
          learned_mac_addresses := [],
          status := if strContains output.toLower "up" then "up" else "down" }

/-- Real enable_port_security (app.py lines 242-257): sends a config set;
    if no connection object is present the attribute access on None raises,
    and any failure is logged and re-raised. -/
def CiscoSwitch.enable_port_security (env : NetEnv) (interface : String) (max_mac : Int)
    (violation_action : String) (d : CiscoSwitch) : Except PyError String :=
  match d.connection with
  | none => .error (.attributeError "\x27NoneType\x27 object has no attribute \x27send_config_set\x27")
  | some _ =>
    match env.sendConfigSet
        [ "interface " ++ interface,
          "switchport port-security",
          "switchport port-security maximum " ++ toString max_mac,
          "switchport port-security violation " ++ violation_action,
          "exit" ] with
    | .ok _ => .ok ("Port security enabled on " ++ interface)
    | .error e => .error (.operationError e)

/-- Real disable_port_security (app.py lines 259-272). -/
def CiscoSwitch.disable_port_security (env : NetEnv) (interface : String) (d : CiscoSwitch) :
    Except PyError String :=
  match d.connection with
  | none => .error (.attributeError "\x27NoneType\x27 object has no attribute \x27send_config_set\x27")
  | some _ =>
    match env.sendConfigSet
        [ "interface " ++ interface, "no switchport port-security", "exit" ] with
    | .ok _ => .ok ("Port security disabled on " ++ interface)
    | .error e => .error (.operationError e)

/-- Real clear_port_security (app.py lines 274-282). -/
def CiscoSwitch.clear_port_security (env : NetEnv) (interface : String) (d : CiscoSwitch) :
    Except PyError String :=
  match d.execute_command env ("clear port-security sticky interface " ++ interface) with
  | .error e => .error e
  | .ok _ => .ok ("Port security cleared on " ++ interface)

/-- The tagged union of the two backends selected by SwitchManager.connect
    per the mode flag (app.py lines 336-345). -/
inductive Device where
  | mock (d : MockCiscoSwitch)
  | real (d : CiscoSwitch)
deriving DecidableEq

/-- The connected flag of the underlying backend object. -/
def Device.isConnected : Device → Bool
  | .mock d => d.connected
  | .real d => d.connected

/-- Dispatch of self.switch.connect() (app.py line 348). Neither backend
    raises here: the mock always returns True, and the real driver catches
    its own exceptions and returns False. The Except wrapping records that
    the caller sits inside a try block (app.py lines 330, 361-364). -/
def Device.connectCall (env : NetEnv) : Device → Except String (Bool × Device)
  | .mock d => .ok (let p := d.connect; (p.1, .mock p.2))
  | .real d => .ok (let p := d.connect env; (p.1, .real p.2))

/-- Dispatch of self.switch.disconnect() (app.py line 369). -/
def Device.disconnect : Device → Device
  | .mock d => .mock d.disconnect
  | .real d => .real d.disconnect

/-- Dispatch of self.switch.get_interface_status (app.py line 395). -/
def Device.get_interface_status (env : NetEnv) (interface : String) :
    Device → Except PyError InterfaceState
  | .mock d => d.get_interface_status interface
  | .real d => d.get_interface_status env interface

/-- Dispatch of self.switch.enable_port_security (app.py line 383); the
    mock mutates its table, the real driver leaves its state unchanged. -/
def Device.enable_port_security (env : NetEnv) (interface : String) (max_mac : Int)
    (violation_action : String) : Device → Except PyError (String × Device)
  | .mock d =>
    (d.enable_port_security interface max_mac violation_action).map
      (fun p => (p.1, .mock p.2))
  | .real d =>
    (d.enable_port_security env interface max_mac violation_action).map
      (fun s => (s, .real d))

/-- Dispatch of self.switch.disable_port_security (app.py line 387). -/
def Device.disable_port_security (env : NetEnv) (interface : String) :
    Device → Except PyError (String × Device)
  | .mock d => (d.disable_port_security interface).map (fun p => (p.1, .mock p.2))
  | .real d => (d.disable_port_security env interface).map (fun s => (s, .real d))

/-- Dispatch of self.switch.clear_port_security (app.py line 391). -/
def Device.clear_port_security (env : NetEnv) (interface : String) :
    Device → Except PyError (String × Device)
  | .mock d => (d.clear_port_security interface).map (fun p => (p.1, .mock p.2))
  | .real d => (d.clear_port_security env interface).map (fun s => (s, .real d))

/-- Runtime configuration (app.py lines 49-57); the values come from
    environment variables and the config routes, so they are parameters
    here. -/
structure Config where
  mock_mode : Bool
  switch_ip : String
  switch_username : String
  switch_password : String
  ssh_port : Int
  connection_timeout : Int
deriving DecidableEq

/-- The credentials dict stored on successful connect
    (app.py lines 350-354). -/
structure Credentials where
  ip : String
  username : String
  password : String
deriving DecidableEq

/-- One audit-log record (app.py lines 316-320). -/
structure LogEntry where
  timestamp : String
  level : String
  message : String
deriving DecidableEq

/-- The session manager state (app.py lines 307-311). -/
structure SwitchManager where
  switch : Option Device
  connected : Bool
  logs : List LogEntry
  current_credentials : Option Credentials
deriving DecidableEq

/-- SwitchManager.__init__ (app.py lines 307-311). -/
def initialSwitchManager : SwitchManager :=
  { switch := none, connected := false, logs := [], current_credentials := none }

/-- SwitchManager.add_log (app.py lines 313-326): append the entry, then
    keep only the last 100 entries. The timestamp comes from the clock and
    is a parameter. -/
def SwitchManager.add_log (m : SwitchManager) (ts message level : String) : SwitchManager :=
  let log_entry : LogEntry := { timestamp := ts, level := level, message := message }
  let logs := m.logs ++ [log_entry]
  { m with logs := if logs.length > 100 then logs.drop (logs.length - 100) else logs }

/-- Python `a or b` on an optional string: falls back when the argument is
    absent or empty (the empty string is falsy), as in app.py lines 332-334. -/
def pyOr (a : Option String) (b : String) : String :=
  match a with
  | some s => if s = "" then b else s
  | none => b

/-- Result of SwitchManager.connect. `discarded` is the Device object that
    the assignment at app.py line 337 / 340 overwrote (the previous value of
    self.switch), in the state it was left in: the source performs no
    operation on it before dropping the reference. -/
structure ConnectResult where
  success : Bool
  message : String
  state : SwitchManager
  discarded : Option Device
deriving DecidableEq

/-- SwitchManager.connect (app.py lines 328-364): resolve credentials with
    config fallbacks, instantiate a fresh backend per the mode flag, log,
    call its connect, and on True set the connected flag and store the
    credentials; on False log an ERROR and return a failure message; a
    raised exception is caught, logged and normalized to a message. -/
def SwitchManager.connect (cfg : Config) (env : NetEnv) (ts : String)
    (ip username password : Option String) (m : SwitchManager) : ConnectResult :=
  let switch_ip := pyOr ip cfg.switch_ip
  let switch_username := pyOr username cfg.switch_username
  let switch_password := pyOr password cfg.switch_password
  let discarded := m.switch
  let (dev, m1) :=
    if cfg.mock_mode then
      let d := Device.mock mkMockCiscoSwitch
      (d, ({ m with switch := some d }).add_log ts "Using mock mode for testing" "INFO")
    else
      let d := Device.real
        { ip := switch_ip, username := switch_username, password := switch_password,
          port := cfg.ssh_port, connection := none, connected := false }
      (d, ({ m with switch := some d }).add_log ts
            ("Connecting to real switch at " ++ switch_ip) "INFO")
  match Device.connectCall env dev with
  | .error e =>
    let error_msg := "Connection error: " ++ e
    { success := false, message := error_msg,
      state := m1.add_log ts error_msg "ERROR", discarded := discarded }
  | .ok (b, dev2) =>
    if b then
      let creds : Credentials :=
        { ip := switch_ip, username := switch_username, password := switch_password }
      let m2 := { m1 with
                  switch := some dev2,
                  connected := true,
                  current_credentials := some creds }
      { success := true, message := "Connected successfully",
        state := m2.add_log ts "Successfully connected to switch" "INFO",
        discarded := discarded }
    else
      { success := false, message := "Connection failed",
        state := ({ m1 with switch := some dev2 }).add_log ts
                   "Failed to connect to switch" "ERROR",
        discarded := discarded }

/-- SwitchManager.disconnect (app.py lines 366-372): only acts when a
    device reference is present; it does not clear self.switch. -/
def SwitchManager.disconnect (ts : String) (m : SwitchManager) : SwitchManager :=
  match m.switch with
  | none => m
  | some d =>
    ({ m with switch := some d.disconnect, connected := false,
              current_credentials := none }).add_log ts "Disconnected from switch" "INFO"

/-- Rendering of a Bool as a JSON literal. -/
def boolJson (b : Bool) : String := if b then "true" else "false"

/-- Rendering of a string as a JSON literal. String escaping is elided:
    no value in the repository contains a character that json.dumps would
    escape. -/
def jsonStr (s : String) : String := "\"" ++ s ++ "\""

/-- Rendering of the learned-MAC list as json.dumps with indent=2 does at
    nesting depth one. -/
def renderLearned : List String → String
  | [] => "[]"
  | l => "[\n" ++ String.intercalate ",\n" (l.map (fun s => "    " ++ jsonStr s))
          ++ "\n  ]"

/-- Rendering of json.dumps(status, indent=2) for the five-key status dict
    built by both backends (app.py line 396). -/
def renderStatus (st : InterfaceState) : String :=
  "\x7b\n  \"port_security\": " ++ boolJson st.port_security
    ++ ",\n  \"max_mac_addresses\": " ++ toString st.max_mac_addresses
    ++ ",\n  \"violation_action\": " ++ jsonStr st.violation_action
    ++ ",\n  \"learned_mac_addresses\": " ++ renderLearned st.learned_mac_addresses
    ++ ",\n  \"status\": " ++ jsonStr st.status
    ++ "\n\x7d"

/-- The keyword arguments the route layer passes to the action dispatch
    (app.py lines 561-564): present only for the enable action. -/
structure Kwargs where
  max_mac : Option Int
  violation_action : Option String
deriving DecidableEq

/-- Result of SwitchManager.execute_port_security_action. `deviceCalls`
    lists the Device methods that were actually invoked, in order, so that
    the guard clauses returning before any Device call are observable. -/
structure ExecResult where
  success : Bool
  result : String
  state : SwitchManager
  deviceCalls : List String
deriving DecidableEq

/-- SwitchManager.execute_port_security_action (app.py lines 374-407):
    guard on the connected flag, dispatch on the action string, log INFO on
    success; any exception from the Device call is caught, logged as ERROR
    and normalized to `(False, "Action failed: ...")`. When self.switch is
    None the method access itself raises AttributeError inside the try
    block (a state unreachable from the initial one, see the connected
    invariant below). -/
def SwitchManager.execute_port_security_action (env : NetEnv) (ts : String)
    (interface action : String) (kwargs : Kwargs) (m : SwitchManager) : ExecResult :=
  if m.connected = false then
    { success := false, result := "Not connected to switch", state := m, deviceCalls := [] }
  else
    let execFail : PyError → List String → ExecResult := fun e calls =>
      let error_msg := "Action failed: " ++ e.toStr
      { success := false, result := error_msg,
        state := m.add_log ts error_msg "ERROR", deviceCalls := calls }
    let attrFail : String → ExecResult := fun meth =>
      execFail (.attributeError ("\x27NoneType\x27 object has no attribute \x27"
        ++ meth ++ "\x27")) []
    if action = "enable" then
      let max_mac := kwargs.max_mac.getD 1
      let violation_action := kwargs.violation_action.getD "shutdown"
      match m.switch with
      | none => attrFail "enable_port_security"
      | some dev =>
        match dev.enable_port_security env interface max_mac violation_action with
        | .ok (result, dev2) =>
          { success := true, result := result,
            state := ({ m with switch := some dev2 }).add_log ts
                       ("Enabled port security on " ++ interface) "INFO",
            deviceCalls := ["enable_port_security"] }
        | .error e => execFail e ["enable_port_security"]
    else if action = "disable" then
      match m.switch with
      | none => attrFail "disable_port_security"
      | some dev =>
        match dev.disable_port_security env interface with
        | .ok (result, dev2) =>
          { success := true, result := result,
            state := ({ m with switch := some dev2 }).add_log ts
                       ("Disabled port security on " ++ interface) "INFO",
            deviceCalls := ["disable_port_security"] }
        | .error e => execFail e ["disable_port_security"]
    else if action = "clear" then
      match m.switch with
      | none => attrFail "clear_port_security"
      | some dev =>
        match dev.clear_port_security env interface with
        | .ok (result, dev2) =>
          { success := true, result := result,
            state := ({ m with switch := some dev2 }).add_log ts
                       ("Cleared port security on " ++ interface) "INFO",
            deviceCalls := ["clear_port_security"] }
        | .error e => execFail e ["clear_port_security"]
    else if action = "status" then
      match m.switch with
      | none => attrFail "get_interface_status"
      | some dev =>
        match dev.get_interface_status env interface with
        | .ok status =>
          { success := true,
            result := "Port security status for " ++ interface ++ ":\n"
                       ++ renderStatus status,
            state := m.add_log ts ("Retrieved status for " ++ interface) "INFO",
            deviceCalls := ["get_interface_status"] }
        | .error e => execFail e ["get_interface_status"]
    else
      { success := false, result := "Unknown action: " ++ action,
        state := m, deviceCalls := [] }

/-- One call into the session manager: the operations named by the
    reachability claims, each with its per-call external inputs. -/
inductive Op where
  | connectOp (cfg : Config) (env : NetEnv) (ts : String) (ip username password : Option String)
  | disconnectOp (ts : String)
  | execOp (env : NetEnv) (ts interface action : String) (kwargs : Kwargs)
  | addLogOp (ts message level : String)

/-- State transition of one operation (results projected away). -/
def step (m : SwitchManager) : Op → SwitchManager
  | .connectOp cfg env ts ip u p => (m.connect cfg env ts ip u p).state
  | .disconnectOp ts => m.disconnect ts
  | .execOp env ts i a kw => (m.execute_port_security_action env ts i a kw).state
  | .addLogOp ts msg lvl => m.add_log ts msg lvl

/-- The state reached from the initial session manager by a sequence of
    operations. -/
def run (ops : List Op) : SwitchManager :=
  ops.foldl step initialSwitchManager

/-- One addLog call described by its external inputs: timestamp, message,
    level. -/
def mkEntry (c : String × String × String) : LogEntry :=
  { timestamp := c.1, level := c.2.2, message := c.2.1 }

/-- A sequence of add_log calls. -/
def addLogs (m : SwitchManager) (calls : List (String × String × String)) : SwitchManager :=
  calls.foldl (fun m c => m.add_log c.1 c.2.1 c.2.2) m

/-- A benign external world: the session opens and every remote call
    returns empty output. -/
def envOk : NetEnv :=
  { connectAttempt := .opened, sendCommand := fun _ => .ok "",
    sendConfigSet := fun _ => .ok "" }

/-- An external world where the netmiko import fails, so the real driver
    connect returns False. -/
def envImportError : NetEnv :=
  { connectAttempt := .importError, sendCommand := fun _ => .ok "",
    sendConfigSet := fun _ => .ok "" }

/-- The default configuration in mock mode (app.py lines 52-57 defaults). -/
def cfgMock : Config :=
  { mock_mode := true, switch_ip := "192.168.1.1", switch_username := "admin",
    switch_password := "admin", ssh_port := 22, connection_timeout := 30 }

/-- The default configuration with mock mode off. -/
def cfgReal : Config := { cfgMock with mock_mode := false }

/-- A concrete Connected session-manager state: the result of one
    successful mock-mode connect from the initial state. -/
def mConnected : SwitchManager :=
  (initialSwitchManager.connect cfgMock envOk "t0" none none none).state

/-- The connected-implies-resources invariant of the session manager
    claimed by the specification. -/
def ConnInv (m : SwitchManager) : Prop :=
  m.connected = true → m.switch.isSome = true ∧ m.current_credentials.isSome = true

theorem add_log_switch (m : SwitchManager) (ts msg lvl : String) :
    (m.add_log ts msg lvl).switch = m.switch := rfl

theorem add_log_connected (m : SwitchManager) (ts msg lvl : String) :
    (m.add_log ts msg lvl).connected = m.connected := rfl

theorem add_log_credentials (m : SwitchManager) (ts msg lvl : String) :
    (m.add_log ts msg lvl).current_credentials = m.current_credentials := rfl

/-- C1: on a Disconnected session manager (connected flag false), the
    action dispatch returns `(false, "Not connected to switch")` for every
    interface name and every action string, invokes no Device operation
    (empty call list) and leaves the whole state, the interface table of
    any held Device included, untouched. -/
theorem c1_disconnected_guard (env : NetEnv) (ts interface action : String)
    (kwargs : Kwargs) (m : SwitchManager) (h : m.connected = false) :
    m.execute_port_security_action env ts interface action kwargs =
      { success := false, result := "Not connected to switch",
        state := m, deviceCalls := [] } := by
  simp [SwitchManager.execute_port_security_action, h]

theorem c1_disconnected_guard_witness :
    initialSwitchManager.connected = false ∧
      initialSwitchManager.execute_port_security_action envOk "t"
        "GigabitEthernet0/1" "enable" { max_mac := none, violation_action := none } =
        { success := false, result := "Not connected to switch",
          state := initialSwitchManager, deviceCalls := [] } :=
  ⟨rfl, c1_disconnected_guard envOk "t" "GigabitEthernet0/1" "enable"
    { max_mac := none, violation_action := none } initialSwitchManager rfl⟩

/-- C8: with a Connected mock session, an action outside
    enable/disable/clear/status returns `(false, "Unknown action: <action>")`
    and the whole session-manager state (mock interface table, connected
    flag, audit log) is unchanged; no Device method runs. -/
theorem c8_unknown_action (env : NetEnv) (ts interface action : String)
    (kwargs : Kwargs) (m : SwitchManager) (d : MockCiscoSwitch)
    (hconn : m.connected = true) (_hdev : m.switch = some (Device.mock d))
    (h1 : action ≠ "enable") (h2 : action ≠ "disable")
    (h3 : action ≠ "clear") (h4 : action ≠ "status") :
    m.execute_port_security_action env ts interface action kwargs =
      { success := false, result := "Unknown action: " ++ action,
        state := m, deviceCalls := [] } := by
  simp [SwitchManager.execute_port_security_action, hconn, h1, h2, h3, h4]

theorem c8_unknown_action_witness :
    mConnected.connected = true ∧
    mConnected.switch = some (Device.mock { mkMockCiscoSwitch with connected := true }) ∧
    mConnected.execute_port_security_action envOk "t1" "GigabitEthernet0/2" "reboot"
        { max_mac := none, violation_action := none } =
      { success := false, result := "Unknown action: reboot",
        state := mConnected, deviceCalls := [] } :=
  ⟨rfl, rfl,
    c8_unknown_action envOk "t1" "GigabitEthernet0/2" "reboot"
      { max_mac := none, violation_action := none } mConnected
      { mkMockCiscoSwitch with connected := true }
      rfl rfl (by decide) (by decide) (by decide) (by decide)⟩

theorem add_log_logs (m : SwitchManager) (ts msg lvl : String) :
    (m.add_log ts msg lvl).logs =
      if (m.logs ++ [({ timestamp := ts, level := lvl, message := msg } : LogEntry)]).length > 100
      then (m.logs ++ [({ timestamp := ts, level := lvl, message := msg } : LogEntry)]).drop
             ((m.logs ++ [({ timestamp := ts, level := lvl, message := msg } : LogEntry)]).length - 100)
      else m.logs ++ [({ timestamp := ts, level := lvl, message := msg } : LogEntry)] := rfl

theorem add_log_length_le (m : SwitchManager) (ts msg lvl : String) :
    (m.add_log ts msg lvl).logs.length ≤ 100 := by
  rw [add_log_logs]
  split
  · rw [List.length_drop]
    omega
  · next h2 => omega

theorem add_log_no_trim (m : SwitchManager) (ts msg lvl : String)
    (h : m.logs.length + 1 ≤ 100) :
    (m.add_log ts msg lvl).logs
      = m.logs ++ [({ timestamp := ts, level := lvl, message := msg } : LogEntry)] := by
  rw [add_log_logs, if_neg]
  simp only [List.length_append, List.length_cons, List.length_nil]
  omega

theorem addLogs_append (m : SwitchManager) (l1 l2 : List (String × String × String)) :
    addLogs m (l1 ++ l2) = addLogs (addLogs m l1) l2 := by
  simp [addLogs]

theorem addLogs_length_le (calls : List (String × String × String)) :
    ∀ m : SwitchManager, m.logs.length ≤ 100 → (addLogs m calls).logs.length ≤ 100 := by
  induction calls with
  | nil => intro m h; simpa [addLogs] using h
  | cons c cs ih =>
    intro m h
    simpa [addLogs] using ih (m.add_log c.1 c.2.1 c.2.2) (add_log_length_le m _ _ _)

theorem addLogs_no_trim (calls : List (String × String × String)) :
    ∀ m : SwitchManager, m.logs.length + calls.length ≤ 100 →
      (addLogs m calls).logs = m.logs ++ calls.map mkEntry := by
  induction calls with
  | nil => intro m h; simp [addLogs]
  | cons c cs ih =>
    intro m h
    simp only [List.length_cons] at h
    have h1 : m.logs.length + 1 ≤ 100 := by omega
    have h2 : (m.add_log c.1 c.2.1 c.2.2).logs = m.logs ++ [mkEntry c] :=
      add_log_no_trim m _ _ _ h1
    have h3 : (m.add_log c.1 c.2.1 c.2.2).logs.length + cs.length ≤ 100 := by
      rw [h2]; simp; omega
    have h4 := ih (m.add_log c.1 c.2.1 c.2.2) h3
    simp only [addLogs, List.foldl_cons] at *
    rw [h4, h2, List.map_cons, List.append_assoc]
    rfl

theorem addLogs_boundary (m : SwitchManager) (l1 : List (String × String × String))
    (c : String × String × String) (h0 : m.logs = []) (hl1 : l1.length = 100) :
    (addLogs m (l1 ++ [c])).logs = ((l1 ++ [c]).map mkEntry).drop 1 := by
  rw [addLogs_append]
  have hlogs1 : (addLogs m l1).logs = l1.map mkEntry := by
    have := addLogs_no_trim l1 m (by rw [h0]; simp [hl1])
    simpa [h0] using this
  show ((addLogs m l1).add_log c.1 c.2.1 c.2.2).logs = _
  rw [add_log_logs, hlogs1]
  have hlen : (List.map mkEntry l1
      ++ [({ timestamp := c.1, level := c.2.2, message := c.2.1 } : LogEntry)]).length = 101 := by
    simp [hl1]
  rw [if_pos (by omega), hlen]
  have hmk : ({ timestamp := c.1, level := c.2.2, message := c.2.1 } : LogEntry)
      = mkEntry c := rfl
  rw [hmk, List.map_append]
  rfl

/-- C3: the audit log is bounded by 100 entries under arbitrary add_log
    sequences, and 101 calls starting from an empty log evict exactly the
    first entry, keeping the other 100 in insertion order. -/
theorem c3_audit_log_bound (m : SwitchManager) (calls : List (String × String × String)) :
    (m.logs.length ≤ 100 → (addLogs m calls).logs.length ≤ 100) ∧
    (m.logs = [] → calls.length = 101 →
      (addLogs m calls).logs = (calls.map mkEntry).drop 1) := by
  refine ⟨addLogs_length_le calls m, fun h0 h101 => ?_⟩
  have hl1 : (calls.take 100).length = 100 := by
    rw [List.length_take]; omega
  have hl2 : (calls.drop 100).length = 1 := by
    rw [List.length_drop]; omega
  obtain ⟨c, hc⟩ := List.length_eq_one.mp hl2
  have hcalls : calls = calls.take 100 ++ [c] := by
    conv_lhs => rw [← List.take_append_drop 100 calls, hc]
  rw [hcalls]
  exact addLogs_boundary m (calls.take 100) c h0 hl1

theorem c3_audit_log_bound_witness :
    initialSwitchManager.logs.length ≤ 100 ∧
    initialSwitchManager.logs = [] ∧
    (List.replicate 101 (("t", "m", "INFO") : String × String × String)).length = 101 ∧
    (addLogs initialSwitchManager (List.replicate 101 ("t", "m", "INFO"))).logs.length ≤ 100 ∧
    (addLogs initialSwitchManager (List.replicate 101 ("t", "m", "INFO"))).logs
      = ((List.replicate 101 (("t", "m", "INFO") : String × String × String)).map mkEntry).drop 1 :=
  ⟨by decide, rfl, by simp,
    (c3_audit_log_bound initialSwitchManager (List.replicate 101 ("t", "m", "INFO"))).1
      (by decide),
    (c3_audit_log_bound initialSwitchManager (List.replicate 101 ("t", "m", "INFO"))).2
      rfl (by simp)⟩

theorem dictLookup_dictSet_self (k : String) (v : InterfaceState)
    (l : List (String × InterfaceState)) (st : InterfaceState)
    (h : dictLookup k l = some st) : dictLookup k (dictSet k v l) = some v := by
  induction l with
  | nil => simp [dictLookup] at h
  | cons p rest ih =>
    obtain ⟨k2, v2⟩ := p
    by_cases hk : k2 = k
    · simp [dictLookup, dictSet, hk]
    · simp only [dictLookup, dictSet, if_neg hk] at h ⊢
      exact ih h

theorem dictLookup_dictSet_ne (k k2 : String) (v : InterfaceState)
    (l : List (String × InterfaceState)) (h : k2 ≠ k) :
    dictLookup k2 (dictSet k v l) = dictLookup k2 l := by
  induction l with
  | nil => simp [dictSet]
  | cons p rest ih =>
    obtain ⟨k3, v3⟩ := p
    simp only [dictSet]
    by_cases hk : k3 = k
    · rw [if_pos hk]
      have hne : k3 ≠ k2 := by rw [hk]; exact Ne.symm h
      simp only [dictLookup, if_neg hne]
      exact ih
    · rw [if_neg hk]
      by_cases hk2 : k3 = k2
      · simp only [dictLookup, if_pos hk2]
      · simp only [dictLookup, if_neg hk2]
        exact ih

/-- C4: for an interface name absent from the mock table, each of
    get_interface_status, enable_port_security, disable_port_security and
    clear_port_security fails with the ValueError naming the interface
    (the NotFoundError of the contract), and dispatching any action on a
    manager holding that mock device leaves the held device, hence its
    interface table, unchanged. -/
theorem c4_unknown_interface (d : MockCiscoSwitch) (interface : String) (max_mac : Int)
    (violation_action : String) (h : dictLookup interface d.interfaces = none) :
    MockCiscoSwitch.get_interface_status interface d
        = .error (.valueError ("Interface " ++ interface ++ " not found")) ∧
    MockCiscoSwitch.enable_port_security interface max_mac violation_action d
        = .error (.valueError ("Interface " ++ interface ++ " not found")) ∧
    MockCiscoSwitch.disable_port_security interface d
        = .error (.valueError ("Interface " ++ interface ++ " not found")) ∧
    MockCiscoSwitch.clear_port_security interface d
        = .error (.valueError ("Interface " ++ interface ++ " not found")) ∧
    (∀ (m : SwitchManager) (env : NetEnv) (ts action : String) (kwargs : Kwargs),
      m.switch = some (Device.mock d) →
      (m.execute_port_security_action env ts interface action kwargs).state.switch
        = m.switch) := by
  refine ⟨by simp [MockCiscoSwitch.get_interface_status, h],
          by simp [MockCiscoSwitch.enable_port_security, h],
          by simp [MockCiscoSwitch.disable_port_security, h],
          by simp [MockCiscoSwitch.clear_port_security, h], ?_⟩
  intro m env ts action kwargs hsw
  by_cases hc : m.connected = false
  · simp [SwitchManager.execute_port_security_action, hc]
  · replace hc : m.connected = true := by
      cases hb : m.connected
      · exact absurd hb hc
      · rfl
    by_cases h1 : action = "enable"
    · subst h1
      simp [SwitchManager.execute_port_security_action, hc, hsw,
            Device.enable_port_security, MockCiscoSwitch.enable_port_security, h,
            Except.map, add_log_switch]
    by_cases h2 : action = "disable"
    · subst h2
      simp [SwitchManager.execute_port_security_action, hc, hsw,
            Device.disable_port_security, MockCiscoSwitch.disable_port_security, h,
            Except.map, add_log_switch]
    by_cases h3 : action = "clear"
    · subst h3
      simp [SwitchManager.execute_port_security_action, hc, hsw,
            Device.clear_port_security, MockCiscoSwitch.clear_port_security, h,
            Except.map, add_log_switch]
    by_cases h4 : action = "status"
    · subst h4
      simp [SwitchManager.execute_port_security_action, hc, hsw,
            Device.get_interface_status, MockCiscoSwitch.get_interface_status, h,
            add_log_switch]
    simp [SwitchManager.execute_port_security_action, hc, h1, h2, h3, h4]

theorem c4_unknown_interface_witness :
    dictLookup "FastEthernet0/99" mkMockCiscoSwitch.interfaces = none ∧
    MockCiscoSwitch.get_interface_status "FastEthernet0/99" mkMockCiscoSwitch
      = .error (.valueError "Interface FastEthernet0/99 not found") ∧
    MockCiscoSwitch.enable_port_security "FastEthernet0/99" 5 "protect" mkMockCiscoSwitch
      = .error (.valueError "Interface FastEthernet0/99 not found") ∧
    MockCiscoSwitch.disable_port_security "FastEthernet0/99" mkMockCiscoSwitch
      = .error (.valueError "Interface FastEthernet0/99 not found") ∧
    MockCiscoSwitch.clear_port_security "FastEthernet0/99" mkMockCiscoSwitch
      = .error (.valueError "Interface FastEthernet0/99 not found") := by
  have h := c4_unknown_interface mkMockCiscoSwitch "FastEthernet0/99" 5 "protect" (by decide)
  exact ⟨by decide, h.1, h.2.1, h.2.2.1, h.2.2.2.1⟩

/-- C10: enabling port security on a known interface of the mock device
    rewrites only the three security fields of that interface: the stored
    record keeps the old learned_mac_addresses (even when longer than the
    new maximum: no truncation) and the old link status, every other key
    maps to its old record, and the rest of the device state is unchanged. -/
theorem c10_enable_frame (d : MockCiscoSwitch) (st : InterfaceState) (interface : String)
    (max_mac : Int) (violation_action : String)
    (h : dictLookup interface d.interfaces = some st) :
    ∃ d2 : MockCiscoSwitch,
      MockCiscoSwitch.enable_port_security interface max_mac violation_action d
        = .ok ("Port security enabled on " ++ interface ++ " with max MAC addresses: "
               ++ toString max_mac ++ ", violation action: " ++ violation_action, d2) ∧
      dictLookup interface d2.interfaces
        = some { port_security := true, max_mac_addresses := max_mac,
                 violation_action := violation_action,
                 learned_mac_addresses := st.learned_mac_addresses,
                 status := st.status } ∧
      (∀ k : String, k ≠ interface → dictLookup k d2.interfaces = dictLookup k d.interfaces) ∧
      d2.connected = d.connected ∧ d2.device_info = d.device_info := by
  refine ⟨{ d with interfaces := dictSet interface ⟨true, max_mac, violation_action, st.learned_mac_addresses, st.status⟩ d.interfaces },
          by simp [MockCiscoSwitch.enable_port_security, h], ?_, ?_, rfl, rfl⟩
  · exact dictLookup_dictSet_self interface _ d.interfaces st h
  · intro k hk
    exact dictLookup_dictSet_ne interface k _ d.interfaces hk

theorem c10_enable_frame_witness :
    dictLookup "GigabitEthernet0/3" mkMockCiscoSwitch.interfaces
      = some { port_security := true, max_mac_addresses := 3, violation_action := "protect",
               learned_mac_addresses := ["00:AA:BB:CC:DD:EE", "00:FF:FF:FF:FF:FF"],
               status := "up" } ∧
    (∃ d2 : MockCiscoSwitch,
      MockCiscoSwitch.enable_port_security "GigabitEthernet0/3" 1 "shutdown" mkMockCiscoSwitch
        = .ok ("Port security enabled on GigabitEthernet0/3 with max MAC addresses: 1, violation action: shutdown", d2) ∧
      dictLookup "GigabitEthernet0/3" d2.interfaces
        = some { port_security := true, max_mac_addresses := 1,
                 violation_action := "shutdown",
                 learned_mac_addresses := ["00:AA:BB:CC:DD:EE", "00:FF:FF:FF:FF:FF"],
                 status := "up" } ∧
      (∀ k : String, k ≠ "GigabitEthernet0/3" →
        dictLookup k d2.interfaces = dictLookup k mkMockCiscoSwitch.interfaces) ∧
      d2.connected = mkMockCiscoSwitch.connected ∧
      d2.device_info = mkMockCiscoSwitch.device_info) :=
  ⟨by decide,
    c10_enable_frame mkMockCiscoSwitch
      { port_security := true, max_mac_addresses := 3, violation_action := "protect",
        learned_mac_addresses := ["00:AA:BB:CC:DD:EE", "00:FF:FF:FF:FF:FF"], status := "up" }
      "GigabitEthernet0/3" 1 "shutdown" (by decide)⟩

/-- C9: on a Connected mock session, enabling port security with any
    max_mac and violation_action on a known interface and then asking for
    its status succeeds, and the status record carries exactly the
    max_mac_addresses and violation_action just set (rendered verbatim in
    the status output). -/
theorem c9_enable_status_roundtrip (m : SwitchManager) (d : MockCiscoSwitch)
    (st : InterfaceState) (env env2 : NetEnv) (ts ts2 interface : String)
    (max_mac : Int) (violation_action : String) (kwargs2 : Kwargs)
    (hconn : m.connected = true) (hdev : m.switch = some (Device.mock d))
    (hst : dictLookup interface d.interfaces = some st) :
    ∃ (r1 : ExecResult) (d2 : MockCiscoSwitch),
      m.execute_port_security_action env ts interface "enable"
          { max_mac := some max_mac, violation_action := some violation_action } = r1 ∧
      r1.success = true ∧
      r1.state.switch = some (Device.mock d2) ∧
      MockCiscoSwitch.get_interface_status interface d2
        = .ok ⟨true, max_mac, violation_action, st.learned_mac_addresses, st.status⟩ ∧
      (r1.state.execute_port_security_action env2 ts2 interface "status" kwargs2).success
        = true ∧
      (r1.state.execute_port_security_action env2 ts2 interface "status" kwargs2).result
        = "Port security status for " ++ interface ++ ":\n"
            ++ renderStatus ⟨true, max_mac, violation_action,
                             st.learned_mac_addresses, st.status⟩ := by
  have hen : MockCiscoSwitch.enable_port_security interface max_mac violation_action d
      = .ok ("Port security enabled on " ++ interface ++ " with max MAC addresses: "
              ++ toString max_mac ++ ", violation action: " ++ violation_action,
             { d with interfaces := dictSet interface ⟨true, max_mac, violation_action, st.learned_mac_addresses, st.status⟩ d.interfaces }) := by
    simp [MockCiscoSwitch.enable_port_security, hst]
  have hr1 : m.execute_port_security_action env ts interface "enable"
      { max_mac := some max_mac, violation_action := some violation_action }
      = { success := true,
          result := "Port security enabled on " ++ interface ++ " with max MAC addresses: "
                      ++ toString max_mac ++ ", violation action: " ++ violation_action,
          state := ({ m with switch := some (Device.mock ({ d with interfaces := dictSet interface ⟨true, max_mac, violation_action, st.learned_mac_addresses, st.status⟩ d.interfaces })) }).add_log
                     ts ("Enabled port security on " ++ interface) "INFO",
          deviceCalls := ["enable_port_security"] } := by
    simp [SwitchManager.execute_port_security_action, hconn, hdev,
          Device.enable_port_security, hen, Except.map]
  have hst2 : dictLookup interface
      ({ d with interfaces := dictSet interface ⟨true, max_mac, violation_action, st.learned_mac_addresses, st.status⟩ d.interfaces }).interfaces
      = some ⟨true, max_mac, violation_action, st.learned_mac_addresses, st.status⟩ :=
    dictLookup_dictSet_self interface _ d.interfaces st hst
  have hgis : MockCiscoSwitch.get_interface_status interface
      ({ d with interfaces := dictSet interface ⟨true, max_mac, violation_action, st.learned_mac_addresses, st.status⟩ d.interfaces })
      = .ok ⟨true, max_mac, violation_action, st.learned_mac_addresses, st.status⟩ := by
    simp [MockCiscoSwitch.get_interface_status, hst2]
  refine ⟨_, _, hr1, rfl, ?_, hgis, ?_, ?_⟩
  · exact add_log_switch _ _ _ _
  · simp [SwitchManager.execute_port_security_action, add_log_connected, hconn,
          add_log_switch, Device.get_interface_status, hgis]
  · simp [SwitchManager.execute_port_security_action, add_log_connected, hconn,
          add_log_switch, Device.get_interface_status, hgis]

theorem c9_enable_status_roundtrip_witness :
    mConnected.connected = true ∧
    mConnected.switch = some (Device.mock { mkMockCiscoSwitch with connected := true }) ∧
    dictLookup "GigabitEthernet0/2" ({ mkMockCiscoSwitch with connected := true } : MockCiscoSwitch).interfaces
      = some ⟨false, 1, "restrict", [], "down"⟩ ∧
    (∃ (r1 : ExecResult) (d2 : MockCiscoSwitch),
      mConnected.execute_port_security_action envOk "t1" "GigabitEthernet0/2" "enable"
          { max_mac := some 3, violation_action := some "restrict" } = r1 ∧
      r1.success = true ∧
      r1.state.switch = some (Device.mock d2) ∧
      MockCiscoSwitch.get_interface_status "GigabitEthernet0/2" d2
        = .ok ⟨true, 3, "restrict", [], "down"⟩ ∧
      (r1.state.execute_port_security_action envOk "t2" "GigabitEthernet0/2" "status"
          { max_mac := none, violation_action := none }).success = true ∧
      (r1.state.execute_port_security_action envOk "t2" "GigabitEthernet0/2" "status"
          { max_mac := none, violation_action := none }).result
        = "Port security status for " ++ "GigabitEthernet0/2" ++ ":\n"
            ++ renderStatus ⟨true, 3, "restrict", [], "down"⟩) :=
  ⟨rfl, rfl, by decide,
    c9_enable_status_roundtrip mConnected { mkMockCiscoSwitch with connected := true }
      ⟨false, 1, "restrict", [], "down"⟩ envOk envOk "t1" "t2" "GigabitEthernet0/2"
      3 "restrict" { max_mac := none, violation_action := none }
      rfl rfl (by decide)⟩

theorem Device.disconnect_idem (dev : Device) :
    dev.disconnect.disconnect = dev.disconnect := by
  cases dev with
  | mock d => rfl
  | real d =>
    by_cases h : d.connection.isSome
    · simp [Device.disconnect, CiscoSwitch.disconnect, h]
    · simp [Device.disconnect, CiscoSwitch.disconnect, h]

theorem disconnect_eq_of_switch_some (m : SwitchManager) (ts : String) (dev : Device)
    (h : m.switch = some dev) :
    m.disconnect ts
      = ({ m with
           switch := some dev.disconnect,
           connected := false,
           current_credentials := none }).add_log ts "Disconnected from switch" "INFO" := by
  unfold SwitchManager.disconnect
  rw [h]

theorem add_log_logs_congr (m m2 : SwitchManager) (h : m2.logs = m.logs)
    (ts msg lvl : String) :
    (m2.add_log ts msg lvl).logs = (m.add_log ts msg lvl).logs := by
  rw [add_log_logs, add_log_logs, h]

/-- C5 counterexample: on a Connected mock session, the second of two
    disconnect calls (even with an identical timestamp) is not a no-op: it
    appends a further "Disconnected from switch" log entry, so the state
    after the second call differs from the state the first call left. -/
theorem c5_disconnect_counterexample :
    ((mConnected.disconnect "t1").disconnect "t1").logs.length
        = (mConnected.disconnect "t1").logs.length + 1 ∧
    ((mConnected.disconnect "t1").disconnect "t1") ≠ (mConnected.disconnect "t1") :=
  ⟨by decide, by decide⟩

/-- C5 amended: a second disconnect never raises and leaves the device
    reference, the connected flag and the credentials exactly as the first
    call left them; but because disconnect does not clear self.switch, the
    second call re-enters the device branch whenever a device reference
    remains and appends one more INFO log entry — only the audit log may
    differ. -/
theorem c5_disconnect_twice_amended (m : SwitchManager) (ts1 ts2 : String) :
    ((m.disconnect ts1).disconnect ts2).switch = (m.disconnect ts1).switch ∧
    ((m.disconnect ts1).disconnect ts2).connected = (m.disconnect ts1).connected ∧
    ((m.disconnect ts1).disconnect ts2).current_credentials
      = (m.disconnect ts1).current_credentials ∧
    (((m.disconnect ts1).disconnect ts2).logs = (m.disconnect ts1).logs ∨
     ((m.disconnect ts1).disconnect ts2).logs
       = ((m.disconnect ts1).add_log ts2 "Disconnected from switch" "INFO").logs) := by
  cases hsw : m.switch with
  | none =>
    have h1 : m.disconnect ts1 = m := by simp [SwitchManager.disconnect, hsw]
    have h2 : m.disconnect ts2 = m := by simp [SwitchManager.disconnect, hsw]
    rw [h1, h2]
    exact ⟨rfl, rfl, rfl, Or.inl rfl⟩
  | some dev =>
    have hd1 := disconnect_eq_of_switch_some m ts1 dev hsw
    have hd1sw : (m.disconnect ts1).switch = some dev.disconnect := by
      rw [hd1, add_log_switch]
    have hd2 := disconnect_eq_of_switch_some (m.disconnect ts1) ts2 dev.disconnect hd1sw
    refine ⟨?_, ?_, ?_, Or.inr ?_⟩
    · rw [hd2, add_log_switch, hd1sw]
      simp [Device.disconnect_idem]
    · rw [hd2, add_log_connected, hd1, add_log_connected]
    · rw [hd2, add_log_credentials, hd1, add_log_credentials]
    · rw [hd2]
      exact add_log_logs_congr _ _ rfl _ _ _

/-- C7 counterexample: from a Connected mock session, connect overwrites
    the device reference while the previous mock device still has its
    connected flag set: the discarded Device was never disconnected, so an
    orphaned still-connected old session remains. -/
theorem c7_orphan_counterexample :
    mConnected.connected = true ∧
    (mConnected.connect cfgMock envOk "t1" none none none).discarded
        = some (Device.mock { mkMockCiscoSwitch with connected := true }) ∧
    Device.isConnected (Device.mock { mkMockCiscoSwitch with connected := true }) = true :=
  ⟨rfl, by decide, rfl⟩

/-- C7 amended: SessionManager.connect never disconnects the previously
    active Device: it overwrites the device reference and discards the old
    Device exactly in the state it was in, so a connect issued while
    Connected leaves the old Device still connected (orphaned). Only the
    mode-change path of the config update disconnects an active session
    before a new connect. -/
theorem c7_connect_discards_old_device (cfg : Config) (env : NetEnv) (ts : String)
    (ip username password : Option String) (m : SwitchManager) :
    (m.connect cfg env ts ip username password).discarded = m.switch := by
  by_cases hm : cfg.mock_mode
  · simp [SwitchManager.connect, hm, Device.connectCall, MockCiscoSwitch.connect]
  · cases hatt : env.connectAttempt <;>
      simp [SwitchManager.connect, hm, Device.connectCall, CiscoSwitch.connect, hatt]

theorem add_log_getLast (m : SwitchManager) (ts msg lvl : String) :
    (m.add_log ts msg lvl).logs.getLast?
      = some { timestamp := ts, level := lvl, message := msg } := by
  rw [add_log_logs]
  split
  · next hgt =>
    have hlen : (m.logs ++ [({ timestamp := ts, level := lvl, message := msg } : LogEntry)]).length
        = m.logs.length + 1 := by simp
    have hn : (m.logs ++ [({ timestamp := ts, level := lvl, message := msg } : LogEntry)]).length - 100
        ≤ m.logs.length := by omega
    rw [List.drop_append_of_le_length hn, List.getLast?_concat]
  · rw [List.getLast?_concat]

/-- C2 counterexample: when the manager is already Connected and a new
    connect is issued whose underlying device connect returns false (real
    mode, netmiko import failing), the call returns the normalized failure
    message but the manager is NOT left Disconnected: the connected flag
    stays true. -/
theorem c2_connect_failure_counterexample :
    mConnected.connected = true ∧
    (mConnected.connect cfgReal envImportError "t1" none none none).success = false ∧
    (mConnected.connect cfgReal envImportError "t1" none none none).message
      = "Connection failed" ∧
    (mConnected.connect cfgReal envImportError "t1" none none none).state.connected = true :=
  ⟨rfl, by decide, by decide, by decide⟩

/-- C2 amended: when the underlying device connect returns false (the only
    failure mode either backend exhibits: the real driver catches its own
    exceptions and returns false, the mock always succeeds), connect
    returns the failure message without raising, appends an ERROR log
    entry, and leaves the connected flag exactly as it was before the call
    — so a Disconnected manager remains Disconnected, while an
    already-Connected one stays flagged connected. -/
theorem c2_connect_failure_amended (cfg : Config) (env : NetEnv) (ts : String)
    (ip username password : Option String) (m : SwitchManager)
    (hmode : cfg.mock_mode = false)
    (hatt : env.connectAttempt ≠ ConnectAttempt.opened) :
    (m.connect cfg env ts ip username password).success = false ∧
    (m.connect cfg env ts ip username password).message = "Connection failed" ∧
    (m.connect cfg env ts ip username password).state.connected = m.connected ∧
    (m.connect cfg env ts ip username password).state.logs.getLast?
      = some { timestamp := ts, level := "ERROR",
               message := "Failed to connect to switch" } := by
  cases hatt2 : env.connectAttempt with
  | opened => exact absurd hatt2 hatt
  | importError =>
    refine ⟨?_, ?_, ?_, ?_⟩ <;>
      simp [SwitchManager.connect, hmode, Device.connectCall, CiscoSwitch.connect,
            hatt2, add_log_connected, add_log_getLast]
  | raised msg =>
    refine ⟨?_, ?_, ?_, ?_⟩ <;>
      simp [SwitchManager.connect, hmode, Device.connectCall, CiscoSwitch.connect,
            hatt2, add_log_connected, add_log_getLast]

theorem c2_connect_failure_amended_witness :
    cfgReal.mock_mode = false ∧
    envImportError.connectAttempt ≠ ConnectAttempt.opened ∧
    ((initialSwitchManager.connect cfgReal envImportError "t" none none none).success = false ∧
     (initialSwitchManager.connect cfgReal envImportError "t" none none none).message
       = "Connection failed" ∧
     (initialSwitchManager.connect cfgReal envImportError "t" none none none).state.connected
       = initialSwitchManager.connected ∧
     (initialSwitchManager.connect cfgReal envImportError "t" none none none).state.logs.getLast?
       = some { timestamp := "t", level := "ERROR",
                message := "Failed to connect to switch" }) :=
  ⟨rfl, by decide,
    c2_connect_failure_amended cfgReal envImportError "t" none none none
      initialSwitchManager rfl (by decide)⟩

theorem exec_state_fields (env : NetEnv) (ts i a : String) (kw : Kwargs)
    (m : SwitchManager) :
    (m.execute_port_security_action env ts i a kw).state.connected = m.connected ∧
    (m.execute_port_security_action env ts i a kw).state.current_credentials
      = m.current_credentials ∧
    (m.execute_port_security_action env ts i a kw).state.switch.isSome
      = m.switch.isSome := by
  by_cases hc : m.connected = false
  · simp [SwitchManager.execute_port_security_action, hc]
  by_cases h1 : a = "enable"
  · subst h1
    cases hsw : m.switch with
    | none =>
      simp [SwitchManager.execute_port_security_action, hc, hsw,
            add_log_connected, add_log_credentials, add_log_switch]
    | some dev =>
      cases hres : dev.enable_port_security env i (kw.max_mac.getD 1)
          (kw.violation_action.getD "shutdown") with
      | ok p =>
        simp [SwitchManager.execute_port_security_action, hc, hsw, hres,
              add_log_connected, add_log_credentials, add_log_switch]
      | error e =>
        simp [SwitchManager.execute_port_security_action, hc, hsw, hres,
              add_log_connected, add_log_credentials, add_log_switch]
  by_cases h2 : a = "disable"
  · subst h2
    cases hsw : m.switch with
    | none =>
      simp [SwitchManager.execute_port_security_action, hc, hsw,
            add_log_connected, add_log_credentials, add_log_switch]
    | some dev =>
      cases hres : dev.disable_port_security env i with
      | ok p =>
        simp [SwitchManager.execute_port_security_action, hc, hsw, hres,
              add_log_connected, add_log_credentials, add_log_switch]
      | error e =>
        simp [SwitchManager.execute_port_security_action, hc, hsw, hres,
              add_log_connected, add_log_credentials, add_log_switch]
  by_cases h3 : a = "clear"
  · subst h3
    cases hsw : m.switch with
    | none =>
      simp [SwitchManager.execute_port_security_action, hc, hsw,
            add_log_connected, add_log_credentials, add_log_switch]
    | some dev =>
      cases hres : dev.clear_port_security env i with
      | ok p =>
        simp [SwitchManager.execute_port_security_action, hc, hsw, hres,
              add_log_connected, add_log_credentials, add_log_switch]
      | error e =>
        simp [SwitchManager.execute_port_security_action, hc, hsw, hres,
              add_log_connected, add_log_credentials, add_log_switch]
  by_cases h4 : a = "status"
  · subst h4
    cases hsw : m.switch with
    | none =>
      simp [SwitchManager.execute_port_security_action, hc, hsw,
            add_log_connected, add_log_credentials, add_log_switch]
    | some dev =>
      cases hres : dev.get_interface_status env i with
      | ok p =>
        simp [SwitchManager.execute_port_security_action, hc, hsw, hres,
              add_log_connected, add_log_credentials, add_log_switch]
      | error e =>
        simp [SwitchManager.execute_port_security_action, hc, hsw, hres,
              add_log_connected, add_log_credentials, add_log_switch]
  simp [SwitchManager.execute_port_security_action, hc, h1, h2, h3, h4]

theorem connect_preserves_inv (cfg : Config) (env : NetEnv) (ts : String)
    (ip username password : Option String) (m : SwitchManager) (h : ConnInv m) :
    ConnInv (m.connect cfg env ts ip username password).state := by
  by_cases hm : cfg.mock_mode
  · intro _
    constructor <;>
      simp [SwitchManager.connect, hm, Device.connectCall, MockCiscoSwitch.connect,
            add_log_connected, add_log_credentials, add_log_switch]
  · cases hatt : env.connectAttempt with
    | opened =>
      intro _
      constructor <;>
        simp [SwitchManager.connect, hm, Device.connectCall, CiscoSwitch.connect, hatt,
              add_log_connected, add_log_credentials, add_log_switch]
    | importError =>
      intro hconn
      have hmc : m.connected = true := by
        simpa [SwitchManager.connect, hm, Device.connectCall, CiscoSwitch.connect, hatt,
               add_log_connected] using hconn
      refine ⟨?_, ?_⟩
      · simp [SwitchManager.connect, hm, Device.connectCall, CiscoSwitch.connect, hatt,
              add_log_switch]
      · have := (h hmc).2
        simpa [SwitchManager.connect, hm, Device.connectCall, CiscoSwitch.connect, hatt,
               add_log_credentials] using this
    | raised msg =>
      intro hconn
      have hmc : m.connected = true := by
        simpa [SwitchManager.connect, hm, Device.connectCall, CiscoSwitch.connect, hatt,
               add_log_connected] using hconn
      refine ⟨?_, ?_⟩
      · simp [SwitchManager.connect, hm, Device.connectCall, CiscoSwitch.connect, hatt,
              add_log_switch]
      · have := (h hmc).2
        simpa [SwitchManager.connect, hm, Device.connectCall, CiscoSwitch.connect, hatt,
               add_log_credentials] using this

theorem disconnect_preserves_inv (ts : String) (m : SwitchManager) (h : ConnInv m) :
    ConnInv (m.disconnect ts) := by
  cases hsw : m.switch with
  | none =>
    have he : m.disconnect ts = m := by simp [SwitchManager.disconnect, hsw]
    rw [he]
    exact h
  | some dev =>
    intro hconn
    rw [disconnect_eq_of_switch_some m ts dev hsw, add_log_connected] at hconn
    exact absurd hconn (by simp)

theorem step_preserves_inv (m : SwitchManager) (op : Op) (h : ConnInv m) :
    ConnInv (step m op) := by
  cases op with
  | connectOp cfg env ts ip u p => exact connect_preserves_inv cfg env ts ip u p m h
  | disconnectOp ts => exact disconnect_preserves_inv ts m h
  | execOp env ts i a kw =>
    intro hconn
    simp only [step] at hconn ⊢
    have hf := exec_state_fields env ts i a kw m
    rw [hf.1] at hconn
    refine ⟨?_, ?_⟩
    · rw [hf.2.2]
      exact (h hconn).1
    · rw [hf.2.1]
      exact (h hconn).2
  | addLogOp ts msg lvl =>
    intro hconn
    simp only [step] at hconn ⊢
    rw [add_log_connected] at hconn
    refine ⟨?_, ?_⟩
    · rw [add_log_switch]
      exact (h hconn).1
    · rw [add_log_credentials]
      exact (h hconn).2

/-- C6: in every state reachable from the initial session manager by any
    sequence of connect, disconnect, execute_port_security_action and
    add_log operations (with arbitrary per-call configuration, external
    world, timestamps and arguments), a true connected flag implies that a
    Device and Credentials are both present. -/
theorem c6_connected_invariant (ops : List Op) :
    (run ops).connected = true →
    (run ops).switch.isSome = true ∧ (run ops).current_credentials.isSome = true := by
  have hrun : ∀ (l : List Op) (m : SwitchManager), ConnInv m → ConnInv (l.foldl step m) := by
    intro l
    induction l with
    | nil => intro m h; exact h
    | cons op rest ih =>
      intro m h
      exact ih (step m op) (step_preserves_inv m op h)
  exact hrun ops initialSwitchManager (fun hconn => nomatch hconn)

theorem c6_connected_invariant_witness :
    (run [Op.connectOp cfgMock envOk "t0" none none none]).connected = true ∧
    ((run [Op.connectOp cfgMock envOk "t0" none none none]).switch.isSome = true ∧
     (run [Op.connectOp cfgMock envOk "t0" none none none]).current_credentials.isSome
       = true) :=
  ⟨rfl, c6_connected_invariant [Op.connectOp cfgMock envOk "t0" none none none] rfl⟩

end SwitchApp
